import Mathlib

/-!
Shallow embedding of the TCP transport client of
`src/openvpn/transport/client/tcpcli.hpp` (`openvpn::TCPTransport`).

The client is modelled as a record of its data members.  Each C++ member
function becomes a Lean function from the client state (plus the arguments
the asynchronous callback would receive) to the new client state paired
with the list of externally visible effects the body performs, in program
order: calls into the resolver, the link, the parent collaborator and the
stats sink.  The effect list stands for the interactions with collaborators
that live outside this translation unit (parent, resolver, stats), so
"exactly one error is delivered" becomes a statement about that list.
-/

namespace TCPTransport

/-- A resolved TCP endpoint (`boost::asio::ip::tcp::endpoint`): an address
and a port.  A default-constructed asio endpoint holds the all-zero
address and port 0. -/
structure Endpoint where
  address : String
  port : Nat
  deriving DecidableEq, Repr

/-- The default-constructed endpoint value, as asio default-constructs it. -/
def Endpoint.default : Endpoint :=
  { address := "0.0.0.0", port := 0 }

/-- `operator<<` on an asio endpoint renders `address:port`. -/
def Endpoint.render (e : Endpoint) : String :=
  e.address ++ ":" ++ toString e.port

/-- `ClientConfig` of tcpcli.hpp: host, port, queue bounds.  The frame and
stats members are references to external collaborators; the stats sink is
represented through the effect list instead. -/
structure ClientConfig where
  server_host : String
  server_port : String
  send_queue_max_size : Nat
  free_list_max_size : Nat
  deriving DecidableEq, Repr

/-- `ClientConfig::new_obj` defaults: `send_queue_max_size(64)`,
`free_list_max_size(8)`; host and port are filled in afterwards. -/
def ClientConfig.new_obj (host port : String) : ClientConfig :=
  { server_host := host, server_port := port,
    send_queue_max_size := 64, free_list_max_size := 8 }

/-- Error categories of the two exception types of tcpcli.hpp:
`tcp_transport_resolve_error` and `tcp_transport_error`. -/
inductive ErrCat where
  | resolve
  | transport
  deriving DecidableEq, Repr

/-- A buffer is its byte contents. -/
abbrev Buf := List Nat

/-- Externally visible effects of a client member function, in program
order: resolver calls, link calls, parent callbacks, stats increments. -/
inductive Ev where
  | asyncResolve (host port : String)
  | resolverCancel
  | linkStart (ep : Endpoint)
  | linkStop
  | parentConnected
  | parentRecv (buf : Buf)
  | parentError (cat : ErrCat) (msg : String)
  | statsError (counter : String)
  deriving DecidableEq, Repr

/-- Whether an effect is a parent error delivery (`parent.transport_error`). -/
def Ev.isParentError : Ev → Bool
  | Ev.parentError _ _ => true
  | _ => false

/-- Whether an effect is a resolution request (`resolver.async_resolve`). -/
def Ev.isAsyncResolve : Ev → Bool
  | Ev.asyncResolve _ _ => true
  | _ => false

/-- Whether an effect increments the `RESOLVE_ERROR` stats counter. -/
def Ev.isStatsResolveError : Ev → Bool
  | Ev.statsError c => c == "RESOLVE_ERROR"
  | _ => false

/-- Whether an effect is a link construction/start. -/
def Ev.isLinkStart : Ev → Bool
  | Ev.linkStart _ => true
  | _ => false

/-- The state of the stream link (`Link<Client*>` of tcplink.hpp) that the
client observes: the endpoint it was constructed against and its bounded
outbound queue. -/
structure LinkState where
  endpoint : Endpoint
  queue : List Buf
  send_queue_max_size : Nat
  deriving DecidableEq, Repr

/-- Modelled from the spec: `Link::send` of tcplink.hpp is not under src/
(only its caller tcpcli.hpp is).  Per the spec, enqueue "appends to the
FIFO if length < bound, else fails without blocking", and a buffer handed
to the link is owned by the link from then on: on acceptance the caller's
mutable buffer is consumed (left empty), on rejection it is left as
passed.  Returns (accepted, new link state, caller's buffer afterwards). -/
def LinkState.send (l : LinkState) (buf : Buf) : Bool × LinkState × Buf :=
  if l.queue.length < l.send_queue_max_size then
    (true, { l with queue := l.queue ++ [buf] }, [])
  else
    (false, l, buf)

/-- `BufferAllocated buf(cbuf, 0)`: allocates a fresh buffer holding a copy
of the bytes of `cbuf`. -/
def BufferAllocated.copyOf (cbuf : Buf) : Buf := cbuf

/-- The data members of `Client`: the shared configuration, the bound
parent (identified by an opaque id, since the parent itself is external),
the optional link `impl`, the resolver (represented by whether an
`async_resolve` issued by this client is outstanding and uncancelled),
the resolved `server_endpoint`, and the `halt` flag. -/
structure Client where
  config : ClientConfig
  parent : Nat
  impl : Option LinkState
  resolving : Bool
  server_endpoint : Endpoint
  halt : Bool
  deriving DecidableEq, Repr

/-- The `Client` constructor: stores config and parent, `halt(false)`;
`impl` is a null pointer, the resolver has no outstanding request, and
`server_endpoint` is default-constructed. -/
def Client.create (cfg : ClientConfig) (parent : Nat) : Client :=
  { config := cfg, parent := parent, impl := none, resolving := false,
    server_endpoint := Endpoint.default, halt := false }

/-- `Client::start`: `if (!impl) { halt = false; resolver.async_resolve(
query(config->server_host, config->server_port), ...); }`. -/
def Client.start (c : Client) : Client × List Ev :=
  match c.impl with
  | none =>
      ({ c with halt := false, resolving := true },
       [Ev.asyncResolve c.config.server_host c.config.server_port])
  | some _ => (c, [])

/-- `Client::stop_`: `if (impl) { impl->stop(); impl.reset(); }
resolver.cancel(); halt = true;`. -/
def Client.stop_ (c : Client) : Client × List Ev :=
  match c.impl with
  | some _ =>
      ({ c with impl := none, resolving := false, halt := true },
       [Ev.linkStop, Ev.resolverCancel])
  | none =>
      ({ c with resolving := false, halt := true },
       [Ev.resolverCancel])

/-- `Client::stop`: `{ stop_(); }`. -/
def Client.stop (c : Client) : Client × List Ev := c.stop_

/-- The `Client` destructor: `~Client() { stop_(); }`. -/
def Client.destruct (c : Client) : Client × List Ev := c.stop_

/-- `Client::send`: if a link is attached, delegate to `impl->send(buf)`
(which may mutate the caller's buffer through the mutable reference),
else return `false`.  Returns (result, new state, caller's buffer
afterwards). -/
def Client.send (c : Client) (buf : Buf) : Bool × Client × Buf :=
  match c.impl with
  | some l =>
      let r := l.send buf
      (r.1, { c with impl := some r.2.1 }, r.2.2)
  | none => (false, c, buf)

/-- `Client::send_const`: if a link is attached, copy the const buffer
into a fresh `BufferAllocated` and hand the copy to `impl->send`; else
return `false`.  `cbuf` is taken by const reference, so the caller's
buffer after the call is the unchanged `cbuf` in every branch: only the
fresh copy is ever handed to the mutable send path. -/
def Client.send_const (c : Client) (cbuf : Buf) : Bool × Client × Buf :=
  match c.impl with
  | some _ =>
      let buf := BufferAllocated.copyOf cbuf
      let r := c.send buf
      (r.1, r.2.1, cbuf)
  | none => (false, c, cbuf)

/-- `Client::transport_send_const`: `return send_const(buf);`. -/
def Client.transport_send_const (c : Client) (cbuf : Buf) : Bool × Client × Buf :=
  c.send_const cbuf

/-- `Client::transport_send`: `return send(buf);`. -/
def Client.transport_send (c : Client) (buf : Buf) : Bool × Client × Buf :=
  c.send buf

/-- `Client::server_endpoint_render`: `os << "TCP " << server_endpoint`. -/
def Client.server_endpoint_render (c : Client) : String :=
  "TCP " ++ c.server_endpoint.render

/-- `Client::server_endpoint_addr`:
`IP::Addr::from_asio(server_endpoint.address())`. -/
def Client.server_endpoint_addr (c : Client) : String :=
  c.server_endpoint.address

/-- `Client::tcp_read_handler` (called by the link): forwards the buffer
to `parent.transport_recv(buf)` unconditionally — the body performs no
halt check. -/
def Client.tcp_read_handler (c : Client) (buf : Buf) : Client × List Ev :=
  (c, [Ev.parentRecv buf])

/-- `Client::tcp_error_handler`: builds
`"Transport error on '" << config->server_host << ": " << error`,
calls `stop()`, then delivers a `tcp_transport_error` to the parent —
the body performs no halt check. -/
def Client.tcp_error_handler (c : Client) (error : String) : Client × List Ev :=
  let os := "Transport error on \x27" ++ c.config.server_host ++ ": " ++ error
  let r := c.stop_
  (r.1, r.2 ++ [Ev.parentError ErrCat.transport os])

/-- `Client::post_start_` (resolution completion): `if (!halt)` — on
success, `server_endpoint = *endpoint_iterator` (the first resolved
endpoint), construct and start a link bound to it, notify the parent of
connection; on error, build a message naming host and cause, increment
`RESOLVE_ERROR`, `stop()`, and deliver a `tcp_transport_resolve_error`
to the parent.  `error = none` means the error code tested false; the
iterator is the list of resolved endpoints. -/
def Client.post_start_ (c : Client) (error : Option String)
    (endpoints : List Endpoint) : Client × List Ev :=
  if c.halt then (c, [])
  else
    match error with
    | none =>
        let ep := endpoints.headD Endpoint.default
        let link : LinkState :=
          { endpoint := ep, queue := [],
            send_queue_max_size := c.config.send_queue_max_size }
        ({ c with server_endpoint := ep, impl := some link },
         [Ev.linkStart ep, Ev.parentConnected])
    | some cause =>
        let os := "DNS resolve error on \x27" ++ c.config.server_host
                    ++ "\x27 for TCP session: " ++ cause
        let r := c.stop_
        (r.1, Ev.statsError "RESOLVE_ERROR" :: (r.2 ++ [Ev.parentError ErrCat.resolve os]))

/-- A concrete configuration used by the concrete instances below. -/
def cfg0 : ClientConfig := ClientConfig.new_obj "vpn.example.com" "1194"

/-- A freshly constructed client over `cfg0`. -/
def c0 : Client := Client.create cfg0 0

/-- `c0` after `start()`: resolution in flight, no link yet. -/
def cResolving : Client := (c0.start).1

/-- `c0` after `stop()`: halt flag set. -/
def cHalted : Client := (c0.stop).1

/-- Claim C1, counterexample.  A client with the halt flag set, whose link
receive callback `tcp_read_handler` is then invoked, still forwards the
buffer to `parent.transport_recv`, and its `tcp_error_handler` still
delivers a transport error to the parent: contrary to the claim, neither
link callback checks the halt flag before invoking the parent. -/
theorem c1_counterexample :
    cHalted.halt = true ∧
    (cHalted.tcp_read_handler [7]).2 = [Ev.parentRecv [7]] ∧
    ((cHalted.tcp_error_handler "reset").2.filter Ev.isParentError ≠ []) := by
  refine ⟨rfl, rfl, ?_⟩
  decide

/-- Claim C1 as amended: after `stop()` sets the halt flag, only the
resolution completion `post_start_` checks it and discards itself,
mutating nothing and invoking no parent callback; the link receive
callback forwards the buffer to `parent.transport_recv` even when halted
(though it mutates no client state), and the link error callback delivers
a transport error to the parent even when halted. -/
theorem c1_only_resolution_checks_halt (c : Client) (hh : c.halt = true)
    (err : Option String) (eps : List Endpoint) (buf : Buf) (e : String) :
    c.post_start_ err eps = (c, []) ∧
    c.tcp_read_handler buf = (c, [Ev.parentRecv buf]) ∧
    ((c.tcp_error_handler e).2.filter Ev.isParentError).length = 1 := by
  refine ⟨?_, rfl, ?_⟩
  · simp [Client.post_start_, hh]
  · cases hImpl : c.impl <;>
      simp [Client.tcp_error_handler, Client.stop_, hImpl, Ev.isParentError]

/-- Claim C1 witness: the amended statement at the concrete halted client. -/
theorem c1_witness :
    cHalted.post_start_ (some "x") [] = (cHalted, []) ∧
    cHalted.tcp_read_handler [7] = (cHalted, [Ev.parentRecv [7]]) ∧
    ((cHalted.tcp_error_handler "reset").2.filter Ev.isParentError).length = 1 :=
  c1_only_resolution_checks_halt cHalted rfl (some "x") [] [7] "reset"

/-- Claim C2, counterexample.  On a client whose resolution is in flight
and whose link is not yet constructed, a re-entrant `start()` is not a
no-op: it issues a second asynchronous resolution (the `if (!impl)` guard
passes, since only an already-present link is detected). -/
theorem c2_counterexample :
    cResolving.resolving = true ∧ cResolving.impl = none ∧
    (cResolving.start).2 = [Ev.asyncResolve "vpn.example.com" "1194"] :=
  ⟨rfl, rfl, rfl⟩

/-- Claim C2 as amended: a re-entrant `start()` is a no-op only when a
link is already present; whenever no link is attached — including while a
resolution is in flight — `start()` clears the halt flag and issues a
(possibly second) asynchronous resolution for the configured host and
port. -/
theorem c2_start_guard (c : Client) :
    (c.impl = none →
      c.start = ({ c with halt := false, resolving := true },
                 [Ev.asyncResolve c.config.server_host c.config.server_port])) ∧
    (∀ l, c.impl = some l → c.start = (c, [])) := by
  constructor
  · intro h
    simp [Client.start, h]
  · intro l h
    simp [Client.start, h]

/-- Claim C2 witness: the amended statement at the concrete in-flight
client (link absent) and at a client with a link attached. -/
theorem c2_witness :
    cResolving.start = ({ cResolving with halt := false, resolving := true },
                        [Ev.asyncResolve "vpn.example.com" "1194"]) :=
  (c2_start_guard cResolving).1 rfl

/-- Claim C3, counterexample.  The halt flag is not terminal: on a stopped
client (halt set, link released), a later `start()` clears the halt flag
and issues a fresh resolution, re-entering the resolving state. -/
theorem c3_counterexample :
    cHalted.halt = true ∧ (cHalted.start).1.halt = false ∧
    (cHalted.start).2 = [Ev.asyncResolve "vpn.example.com" "1194"] :=
  ⟨rfl, rfl, rfl⟩

/-- Claim C3 as amended: once `stop()` sets the halt flag it stays set
under every subsequent operation except `start()`: `stop_`, the
resolution completion, both link callbacks and both sends leave it set;
but because `stop()` released the link, a later `start()` passes the
`if (!impl)` guard, clears the halt flag and re-enters resolution, so the
stopped state is not terminal against `start()`. -/
theorem c3_halt_not_terminal (c : Client) (hh : c.halt = true) :
    ((c.stop_).1.halt = true) ∧
    (∀ err eps, (c.post_start_ err eps).1.halt = true) ∧
    (∀ buf, (c.tcp_read_handler buf).1.halt = true) ∧
    (∀ e, (c.tcp_error_handler e).1.halt = true) ∧
    (∀ buf, (c.send buf).2.1.halt = true) ∧
    (∀ buf, (c.send_const buf).2.1.halt = true) ∧
    (c.impl = none → (c.start).1.halt = false ∧
      (c.start).2 = [Ev.asyncResolve c.config.server_host c.config.server_port]) := by
  refine ⟨?_, ?_, ?_, ?_, ?_, ?_, ?_⟩
  · cases hImpl : c.impl <;> simp [Client.stop_, hImpl]
  · intro err eps
    simp [Client.post_start_, hh]
  · intro buf
    simpa [Client.tcp_read_handler] using hh
  · intro e
    cases hImpl : c.impl <;> simp [Client.tcp_error_handler, Client.stop_, hImpl]
  · intro buf
    cases hImpl : c.impl <;> simp [Client.send, LinkState.send, hImpl] <;> exact hh
  · intro buf
    cases hImpl : c.impl <;>
      simp [Client.send_const, Client.send, LinkState.send, hImpl] <;> exact hh
  · intro h
    simp [Client.start, h]

/-- Claim C3 witness: the amended statement at the concrete stopped
client. -/
theorem c3_witness :
    ((cHalted.stop_).1.halt = true) ∧
    (∀ err eps, (cHalted.post_start_ err eps).1.halt = true) ∧
    (∀ buf, (cHalted.tcp_read_handler buf).1.halt = true) ∧
    (∀ e, (cHalted.tcp_error_handler e).1.halt = true) ∧
    (∀ buf, (cHalted.send buf).2.1.halt = true) ∧
    (∀ buf, (cHalted.send_const buf).2.1.halt = true) ∧
    (cHalted.impl = none → (cHalted.start).1.halt = false ∧
      (cHalted.start).2 = [Ev.asyncResolve "vpn.example.com" "1194"]) :=
  c3_halt_not_terminal cHalted rfl

/-- `c0` after a successful resolution to `10.0.0.1:1194`: link attached. -/
def cConnected : Client :=
  (c0.post_start_ none [{ address := "10.0.0.1", port := 1194 }]).1

/-- Claim C4: when resolution completes with an error and the halt flag is
not set, exactly one `RESOLVE_ERROR` stats increment is recorded, the
client transitions to the stopped state (link absent, resolution
cancelled, halt set), the parent receives exactly one resolve-category
error naming the configured host and the underlying cause, and no new
resolution is issued (no internal retry). -/
theorem c4_resolve_error (c : Client) (hh : c.halt = false)
    (cause : String) (eps : List Endpoint) :
    (c.post_start_ (some cause) eps).1.halt = true ∧
    (c.post_start_ (some cause) eps).1.impl = none ∧
    (c.post_start_ (some cause) eps).1.resolving = false ∧
    ((c.post_start_ (some cause) eps).2.filter Ev.isStatsResolveError).length = 1 ∧
    (c.post_start_ (some cause) eps).2.filter Ev.isParentError =
      [Ev.parentError ErrCat.resolve
        ("DNS resolve error on \x27" ++ c.config.server_host
          ++ "\x27 for TCP session: " ++ cause)] ∧
    (c.post_start_ (some cause) eps).2.filter Ev.isAsyncResolve = [] := by
  cases hImpl : c.impl <;>
    simp [Client.post_start_, Client.stop_, hh, hImpl,
          Ev.isStatsResolveError, Ev.isParentError, Ev.isAsyncResolve]

/-- Claim C4 witness: the concrete fresh client resolving
`vpn.example.com:1194` fails; exactly one `RESOLVE_ERROR` increment and
one resolve error naming the host reach the collaborators. -/
theorem c4_witness :
    (c0.post_start_ (some "host not found") []).1.halt = true ∧
    (c0.post_start_ (some "host not found") []).1.impl = none ∧
    (c0.post_start_ (some "host not found") []).1.resolving = false ∧
    ((c0.post_start_ (some "host not found") []).2.filter Ev.isStatsResolveError).length = 1 ∧
    (c0.post_start_ (some "host not found") []).2.filter Ev.isParentError =
      [Ev.parentError ErrCat.resolve
        ("DNS resolve error on \x27vpn.example.com\x27 for TCP session: host not found")] ∧
    (c0.post_start_ (some "host not found") []).2.filter Ev.isAsyncResolve = [] :=
  c4_resolve_error c0 rfl "host not found" []

/-- Claim C5: when the link reports a transport error on a client with a
link attached, the client is stopped first (link torn down, resolver
cancelled) and only then is the single transport-category error —
naming the configured host and the underlying cause — delivered to the
parent; afterwards the link is gone, the halt flag is set, and any
subsequent `transport_send` returns `false` without changing state. -/
theorem c5_link_error_fatal (c : Client) (l : LinkState) (hImpl : c.impl = some l)
    (e : String) (buf : Buf) :
    (c.tcp_error_handler e).2 =
      [Ev.linkStop, Ev.resolverCancel,
       Ev.parentError ErrCat.transport
         ("Transport error on \x27" ++ c.config.server_host ++ ": " ++ e)] ∧
    (c.tcp_error_handler e).1.impl = none ∧
    (c.tcp_error_handler e).1.halt = true ∧
    (c.tcp_error_handler e).1.transport_send buf =
      (false, (c.tcp_error_handler e).1, buf) := by
  simp [Client.tcp_error_handler, Client.stop_, Client.transport_send,
        Client.send, hImpl]

/-- Claim C5 witness: the concrete connected client, on a peer reset,
stops itself, reports exactly one transport error naming the host, and
rejects a subsequent send. -/
theorem c5_witness :
    (cConnected.tcp_error_handler "connection reset").2 =
      [Ev.linkStop, Ev.resolverCancel,
       Ev.parentError ErrCat.transport
         ("Transport error on \x27vpn.example.com: connection reset")] ∧
    (cConnected.tcp_error_handler "connection reset").1.impl = none ∧
    (cConnected.tcp_error_handler "connection reset").1.halt = true ∧
    (cConnected.tcp_error_handler "connection reset").1.transport_send [1, 2] =
      (false, (cConnected.tcp_error_handler "connection reset").1, [1, 2]) :=
  c5_link_error_fatal cConnected _ rfl "connection reset" [1, 2]

/-- Claim C6: `stop()` is idempotent and destruction performs the same
teardown.  A second `stop()` on an already-stopped client changes no
state and performs only the (harmless) resolver cancel — in particular
no second link release and no error report of any kind reaches the
parent — and the destructor body is exactly the `stop_` teardown. -/
theorem c6_stop_idempotent (c : Client) :
    (c.stop).1.stop = ((c.stop).1, [Ev.resolverCancel]) ∧
    c.destruct = c.stop := by
  constructor
  · cases hImpl : c.impl <;> simp [Client.stop, Client.stop_, hImpl]
  · rfl

/-- Claim C7: with no link attached, both send entry points (and their
private delegates) return `false`, leave the client state unchanged, and
leave the caller's buffer unchanged. -/
theorem c7_send_without_link (c : Client) (h : c.impl = none) (buf : Buf) :
    c.transport_send buf = (false, c, buf) ∧
    c.transport_send_const buf = (false, c, buf) ∧
    c.send buf = (false, c, buf) ∧
    c.send_const buf = (false, c, buf) := by
  simp [Client.transport_send, Client.transport_send_const,
        Client.send, Client.send_const, h]

/-- Claim C7 witness: the never-started concrete client rejects both
sends without state change. -/
theorem c7_witness :
    c0.transport_send [9] = (false, c0, [9]) ∧
    c0.transport_send_const [9] = (false, c0, [9]) ∧
    c0.send [9] = (false, c0, [9]) ∧
    c0.send_const [9] = (false, c0, [9]) :=
  c7_send_without_link c0 rfl [9]

/-- Claim C8: when resolution succeeds and the halt flag is not set, only
the first resolved endpoint is used — the result does not depend on the
remaining endpoints — and exactly one link, bound to that endpoint with
an empty queue and the configured bound, is constructed and started,
after which the parent is notified of connection. -/
theorem c8_first_endpoint_only (c : Client) (hh : c.halt = false)
    (ep : Endpoint) (rest : List Endpoint) :
    c.post_start_ none (ep :: rest) =
      ({ c with server_endpoint := ep,
                impl := some { endpoint := ep, queue := [],
                               send_queue_max_size := c.config.send_queue_max_size } },
       [Ev.linkStart ep, Ev.parentConnected]) ∧
    c.post_start_ none (ep :: rest) = c.post_start_ none [ep] ∧
    ((c.post_start_ none (ep :: rest)).2.filter Ev.isLinkStart).length = 1 := by
  simp [Client.post_start_, hh, Ev.isLinkStart]

/-- Claim C8 witness: the concrete fresh client resolving to
`10.0.0.1:1194` with an ignored alternate endpoint. -/
theorem c8_witness :
    c0.post_start_ none
        [{ address := "10.0.0.1", port := 1194 }, { address := "10.0.0.2", port := 1194 }] =
      ({ c0 with server_endpoint := { address := "10.0.0.1", port := 1194 },
                 impl := some { endpoint := { address := "10.0.0.1", port := 1194 },
                                queue := [], send_queue_max_size := 64 } },
       [Ev.linkStart { address := "10.0.0.1", port := 1194 }, Ev.parentConnected]) ∧
    c0.post_start_ none
        [{ address := "10.0.0.1", port := 1194 }, { address := "10.0.0.2", port := 1194 }] =
      c0.post_start_ none [{ address := "10.0.0.1", port := 1194 }] ∧
    ((c0.post_start_ none
        [{ address := "10.0.0.1", port := 1194 },
         { address := "10.0.0.2", port := 1194 }]).2.filter Ev.isLinkStart).length = 1 :=
  c8_first_endpoint_only c0 rfl { address := "10.0.0.1", port := 1194 }
    [{ address := "10.0.0.2", port := 1194 }]

/-- Claim C9: `transport_send_const` never changes the caller's buffer,
for every outcome: with a link attached the call equals running the
mutable send path on a fresh copy of the caller's bytes while handing the
unchanged `cbuf` back to the caller, and when the link accepts, the
mutable path consumes its argument — the copy — so without the copy the
caller's data would have been consumed instead. -/
theorem c9_const_send_copies (c : Client) (cbuf : Buf) :
    (c.transport_send_const cbuf).2.2 = cbuf ∧
    (∀ l, c.impl = some l →
      c.transport_send_const cbuf =
        ((l.send (BufferAllocated.copyOf cbuf)).1,
         { c with impl := some (l.send (BufferAllocated.copyOf cbuf)).2.1 },
         cbuf)) ∧
    (∀ l, c.impl = some l → l.queue.length < l.send_queue_max_size →
      (l.send (BufferAllocated.copyOf cbuf)).2.2 = []) := by
  refine ⟨?_, ?_, ?_⟩
  · cases hImpl : c.impl <;>
      simp [Client.transport_send_const, Client.send_const, Client.send, hImpl]
  · intro l hImpl
    simp [Client.transport_send_const, Client.send_const, Client.send, hImpl]
  · intro l hImpl hRoom
    simp [LinkState.send, hRoom]

/-- Claim C9 witness: the concrete connected client; the caller's buffer
survives the const send while the copy handed to the link is consumed. -/
theorem c9_witness :
    (cConnected.transport_send_const [5, 6]).2.2 = [5, 6] ∧
    (∀ l, cConnected.impl = some l →
      cConnected.transport_send_const [5, 6] =
        ((l.send (BufferAllocated.copyOf [5, 6])).1,
         { cConnected with impl := some (l.send (BufferAllocated.copyOf [5, 6])).2.1 },
         [5, 6])) ∧
    (∀ l, cConnected.impl = some l → l.queue.length < l.send_queue_max_size →
      (l.send (BufferAllocated.copyOf [5, 6])).2.2 = []) :=
  c9_const_send_copies cConnected [5, 6]

/-- Claim C10: `stop_` leaves the stored resolved endpoint, the
configuration reference and the parent reference unchanged, so both
endpoint accessors report the same values after `stop()` as before;
every operation other than a non-halted successful resolution completion
preserves `server_endpoint`; and a freshly constructed client reports
the default-constructed endpoint through both accessors rather than
failing. -/
theorem c10_stop_preserves_endpoint (c : Client) :
    (c.stop_).1.server_endpoint = c.server_endpoint ∧
    (c.stop_).1.config = c.config ∧
    (c.stop_).1.parent = c.parent ∧
    (c.stop_).1.server_endpoint_render = c.server_endpoint_render ∧
    (c.stop_).1.server_endpoint_addr = c.server_endpoint_addr ∧
    (c.start).1.server_endpoint = c.server_endpoint ∧
    (∀ buf, (c.tcp_read_handler buf).1.server_endpoint = c.server_endpoint) ∧
    (∀ e, (c.tcp_error_handler e).1.server_endpoint = c.server_endpoint) ∧
    (∀ buf, (c.send buf).2.1.server_endpoint = c.server_endpoint) ∧
    (∀ buf, (c.send_const buf).2.1.server_endpoint = c.server_endpoint) ∧
    (∀ cause eps, (c.post_start_ (some cause) eps).1.server_endpoint = c.server_endpoint) ∧
    (∀ cfg p, (Client.create cfg p).server_endpoint = Endpoint.default ∧
              (Client.create cfg p).server_endpoint_render = "TCP 0.0.0.0:0" ∧
              (Client.create cfg p).server_endpoint_addr = "0.0.0.0") := by
  refine ⟨?_, ?_, ?_, ?_, ?_, ?_, ?_, ?_, ?_, ?_, ?_, ?_⟩
  · cases hImpl : c.impl <;> simp [Client.stop_, hImpl]
  · cases hImpl : c.impl <;> simp [Client.stop_, hImpl]
  · cases hImpl : c.impl <;> simp [Client.stop_, hImpl]
  · cases hImpl : c.impl <;> simp [Client.stop_, Client.server_endpoint_render, hImpl]
  · cases hImpl : c.impl <;> simp [Client.stop_, Client.server_endpoint_addr, hImpl]
  · cases hImpl : c.impl <;> simp [Client.start, hImpl]
  · intro buf
    simp [Client.tcp_read_handler]
  · intro e
    cases hImpl : c.impl <;> simp [Client.tcp_error_handler, Client.stop_, hImpl]
  · intro buf
    cases hImpl : c.impl <;> simp [Client.send, LinkState.send, hImpl]
  · intro buf
    cases hImpl : c.impl <;> simp [Client.send_const, Client.send, LinkState.send, hImpl]
  · intro cause eps
    by_cases hh : c.halt = true
    · simp [Client.post_start_, hh]
    · cases hImpl : c.impl <;>
        simp [Client.post_start_, Client.stop_, hh, hImpl]
  · intro cfg p
    refine ⟨rfl, ?_, rfl⟩
    show "TCP " ++ Endpoint.default.render = "TCP 0.0.0.0:0"
    decide

end TCPTransport
